import Mathlib

/-!
Verification of the kingdom turn and economy engine of pf2e-kingmaker-tools.
The definitions below are a shallow embedding of the TypeScript sources
(src/kingdom/kingdom.ts, src/migrations.ts and the structure browser file);
machine numbers are modelled as Int, dice rolls and settlement scene data are
passed in as explicit arguments because they are produced by external
collaborators (the dice port and the game scene store).
-/

namespace Kingmaker

/-- Commodities record: one quantity per commodity, as in data/kingdom. -/
structure Commodities where
  food : Int
  luxuries : Int
  stone : Int
  lumber : Int
  ore : Int
  deriving Repr, DecidableEq

/-- CommodityStorage from data/structures: per-commodity storage bonus. -/
structure CommodityStorage where
  food : Int
  luxuries : Int
  stone : Int
  lumber : Int
  ore : Int
  deriving Repr, DecidableEq

/-- A now/next integer counter pair (resourcePoints, resourceDice). -/
structure NowNext where
  now : Int
  next : Int
  deriving Repr, DecidableEq

/-- The commodities ledger with a now column and a next column. -/
structure CommoditiesNowNext where
  now : Commodities
  next : Commodities
  deriving Repr, DecidableEq

/-- Consumption: now/next plus the army upkeep column. -/
structure Consumption where
  now : Int
  next : Int
  armies : Int
  deriving Repr, DecidableEq

/-- One ruin counter. -/
structure RuinValues where
  value : Int
  deriving Repr, DecidableEq

/-- The four ruin counters. -/
structure Ruin where
  crime : RuinValues
  decay : RuinValues
  corruption : RuinValues
  strife : RuinValues
  deriving Repr, DecidableEq

/-- One work site entry: claimed quantity and bonus resources. -/
structure WorkSite where
  quantity : Int
  resources : Int
  deriving Repr, DecidableEq

/-- The work sites of the kingdom. -/
structure WorkSites where
  mines : WorkSite
  lumberCamps : WorkSite
  luxurySources : WorkSite
  deriving Repr, DecidableEq

/-- A feat entry; only the id is relevant to the engine. -/
structure Feat where
  id : String
  deriving Repr, DecidableEq

/-- The kingdom record (the fields the turn engine reads and writes). -/
structure Kingdom where
  level : Int
  size : String
  atWar : Bool
  unrest : Int
  commodities : CommoditiesNowNext
  resourcePoints : NowNext
  resourceDice : NowNext
  consumption : Consumption
  ruin : Ruin
  workSites : WorkSites
  turnsWithoutEvent : Int
  feats : List Feat
  bonusFeats : List Feat
  skillRanks : String → Int

/-- Turn column selector, the ResourceTurn union type of migrations.ts. -/
inductive ResourceTurn where
  | now
  | next
  deriving Repr, DecidableEq

/-- Gain/lose selector, the ResourceMode union type of migrations.ts. -/
inductive ResourceMode where
  | gain
  | lose
  deriving Repr, DecidableEq

/-- Modelled from the spec: unslugify lives in utils.ts, which is absent from
the sources; the spec (section 6) treats it as the minimal label identifying a
resource type, so it is modelled as the identity on the tag. -/
def unslugify (s : String) : String := s

/-- Result record of calculateNewValue in migrations.ts. -/
structure ResourceValues where
  value : Int
  message : String
  missingMessage : String
  deriving Repr, DecidableEq

/-- Mirrors the internal missing computation of calculateNewValue:
value < 0 then Math.abs(value) else 0. -/
def calculateMissing (value : Int) : Int :=
  if value < 0 then -value else 0

/-- calculateNewValue from migrations.ts. -/
def calculateNewValue (currentValue newValue : Int) (type : String)
    (turn : ResourceTurn) (mode : ResourceMode) (limit : Option Int) :
    ResourceValues :=
  let value := match mode with
    | ResourceMode.gain => currentValue + newValue
    | ResourceMode.lose => currentValue - newValue
  let missing := calculateMissing value
  let limitedValue := match limit with
    | none => value
    | some l => max l value
  let label := unslugify type
  let turnLabel := match turn with
    | ResourceTurn.now => "this turn"
    | ResourceTurn.next => "next turn"
  let message := (match mode with
    | ResourceMode.gain => "Gaining "
    | ResourceMode.lose => "Losing ") ++ toString limitedValue ++ " " ++
    label ++ " " ++ turnLabel
  let missingMessage :=
    if missing > 0 ∧ turn = ResourceTurn.now then
      "Missing " ++ toString missing ++ " " ++ label
    else ""
  { value := limitedValue, message := message, missingMessage := missingMessage }

/-- Dynamic commodity lookup kingdom.commodities[turn]. -/
def commoditiesAt (c : CommoditiesNowNext) (turn : ResourceTurn) : Commodities :=
  match turn with
  | ResourceTurn.now => c.now
  | ResourceTurn.next => c.next

/-- Dynamic lookup on a now/next counter pair. -/
def nowNextAt (r : NowNext) (turn : ResourceTurn) : Int :=
  match turn with
  | ResourceTurn.now => r.now
  | ResourceTurn.next => r.next

/-- Dynamic commodity field read commodities[type] (only reached for one of
the five commodity tags). -/
def commodityField (c : Commodities) (type : String) : Int :=
  if type = "food" then c.food
  else if type = "luxuries" then c.luxuries
  else if type = "ore" then c.ore
  else if type = "lumber" then c.lumber
  else c.stone

/-- Dynamic ruin field read kingdom.ruin[type] (only reached for one of the
four ruin tags). -/
def ruinField (r : Ruin) (type : String) : RuinValues :=
  if type = "crime" then r.crime
  else if type = "decay" then r.decay
  else if type = "strife" then r.strife
  else r.corruption

/-- getCurrentValue from migrations.ts; the throw on an unhandled tag is
modelled as Except.error. -/
def getCurrentValue (kingdom : Kingdom) (type : String) (turn : ResourceTurn) :
    Except String Int :=
  if type = "food" ∨ type = "luxuries" ∨ type = "ore" ∨ type = "lumber" ∨
      type = "stone" then
    Except.ok (commodityField (commoditiesAt kingdom.commodities turn) type)
  else if type = "unrest" then
    Except.ok kingdom.unrest
  else if type = "resource-dice" then
    Except.ok (nowNextAt kingdom.resourceDice turn)
  else if type = "resource-points" ∨ type = "roll-resource-dice" then
    Except.ok (nowNextAt kingdom.resourcePoints turn)
  else if type = "crime" ∨ type = "decay" ∨ type = "strife" ∨
      type = "corruption" then
    Except.ok (ruinField kingdom.ruin type).value
  else
    Except.error ("Unhandled type " ++ type)

/-- Shallow partial kingdom update produced by createUpdate; each constructor
mirrors one shape of the returned Partial object. -/
inductive KingdomUpdate where
  | resourcePoints (v : NowNext)
  | resourceDice (v : NowNext)
  | unrest (v : Int)
  | ruin (v : Ruin)
  | commodities (v : CommoditiesNowNext)
  deriving Repr, DecidableEq

/-- Spread update on a now/next pair with a dynamic [turn] key. -/
def setNowNext (r : NowNext) (turn : ResourceTurn) (value : Int) : NowNext :=
  match turn with
  | ResourceTurn.now => { r with now := value }
  | ResourceTurn.next => { r with next := value }

/-- Spread update kingdom.ruin with a dynamic [type] key (only reached for a
ruin tag). -/
def setRuinValue (r : Ruin) (type : String) (value : Int) : Ruin :=
  if type = "strife" then { r with strife := { r.strife with value := value } }
  else if type = "crime" then { r with crime := { r.crime with value := value } }
  else if type = "decay" then { r with decay := { r.decay with value := value } }
  else { r with corruption := { r.corruption with value := value } }

/-- Spread update on a commodities record with a dynamic [type] key (only
reached for a commodity tag). -/
def setCommodityField (c : Commodities) (type : String) (value : Int) :
    Commodities :=
  if type = "lumber" then { c with lumber := value }
  else if type = "ore" then { c with ore := value }
  else if type = "stone" then { c with stone := value }
  else if type = "food" then { c with food := value }
  else { c with luxuries := value }

/-- Spread update on the commodity ledger with a dynamic [turn] key. -/
def setCommoditiesAt (c : CommoditiesNowNext) (turn : ResourceTurn)
    (type : String) (value : Int) : CommoditiesNowNext :=
  match turn with
  | ResourceTurn.now => { c with now := setCommodityField c.now type value }
  | ResourceTurn.next => { c with next := setCommodityField c.next type value }

/-- createUpdate from migrations.ts; the throw on an unhandled tag is
modelled as Except.error. -/
def createUpdate (kingdom : Kingdom) (type : String) (turn : ResourceTurn)
    (value : Int) : Except String KingdomUpdate :=
  if type = "roll-resource-dice" ∨ type = "resource-points" then
    Except.ok (KingdomUpdate.resourcePoints
      (setNowNext kingdom.resourcePoints turn value))
  else if type = "resource-dice" then
    Except.ok (KingdomUpdate.resourceDice
      (setNowNext kingdom.resourceDice turn value))
  else if type = "unrest" then
    Except.ok (KingdomUpdate.unrest value)
  else if type = "strife" ∨ type = "crime" ∨ type = "decay" ∨
      type = "corruption" then
    Except.ok (KingdomUpdate.ruin (setRuinValue kingdom.ruin type value))
  else if type = "lumber" ∨ type = "ore" ∨ type = "stone" ∨ type = "food" ∨
      type = "luxuries" then
    Except.ok (KingdomUpdate.commodities
      (setCommoditiesAt kingdom.commodities turn type value))
  else
    Except.error ("Unhandled type " ++ type)

/-- The closed set of resource tags handled by the resolver. -/
def handledResourceTags : List String :=
  ["food", "luxuries", "ore", "lumber", "stone", "unrest", "resource-dice",
   "resource-points", "roll-resource-dice", "crime", "decay", "strife",
   "corruption"]

/-- Success test for an Except result. -/
def exceptOk {ε α : Type} (e : Except ε α) : Bool :=
  match e with
  | Except.ok _ => true
  | Except.error _ => false

/-- Settlement record fields the engine aggregates (from structures/scene). -/
structure Settlement where
  leadershipActivityBonus : Bool
  consumption : Int
  storage : CommodityStorage
  unlockActivities : List String
  deriving Repr, DecidableEq

/-- Scene flags of one settlement scene. -/
structure SceneData where
  overcrowded : Bool
  secondaryTerritory : Bool
  deriving Repr, DecidableEq

/-- One entry of getAllSettlementSceneDataAndStructures: scene flags plus the
evaluated settlement data. -/
structure SettlementSceneData where
  scenedData : SceneData
  settlement : Settlement
  deriving Repr, DecidableEq

/-- Kingdom-wide settlement aggregate assembled by getSettlementData. -/
structure SettlementData where
  leadershipActivityNumber : Int
  settlementConsumption : Int
  storage : CommodityStorage
  unlockedActivities : Finset String
  deriving DecidableEq

/-- Per-settlement projection inside getSettlementData (the map step). -/
def settlementProject (s : SettlementSceneData) : SettlementData :=
  { leadershipActivityNumber := if s.settlement.leadershipActivityBonus then 3 else 2,
    settlementConsumption := s.settlement.consumption,
    storage := s.settlement.storage,
    unlockedActivities := s.settlement.unlockActivities.toFinset }

/-- Merge step of the reduce inside getSettlementData. -/
def settlementCombine (prev curr : SettlementData) : SettlementData :=
  { leadershipActivityNumber :=
      max prev.leadershipActivityNumber curr.leadershipActivityNumber,
    settlementConsumption :=
      prev.settlementConsumption + curr.settlementConsumption,
    storage :=
      { ore := prev.storage.ore + curr.storage.ore,
        stone := prev.storage.stone + curr.storage.stone,
        luxuries := prev.storage.luxuries + curr.storage.luxuries,
        lumber := prev.storage.lumber + curr.storage.lumber,
        food := prev.storage.food + curr.storage.food },
    unlockedActivities := prev.unlockedActivities ∪ curr.unlockedActivities }

/-- Starting accumulator of the reduce inside getSettlementData. -/
def settlementDataInit : SettlementData :=
  { leadershipActivityNumber := 2,
    settlementConsumption := 0,
    storage := { ore := 0, stone := 0, luxuries := 0, lumber := 0, food := 0 },
    unlockedActivities := ∅ }

/-- getSettlementData from kingdom.ts: map then reduce with the fixed
starting accumulator. -/
def getSettlementData (settlements : List SettlementSceneData) :
    SettlementData :=
  (settlements.map settlementProject).foldl settlementCombine settlementDataInit

/-- calculateStorageCapacity from kingdom.ts. -/
def calculateStorageCapacity (capacity : Int) (storage : CommodityStorage) :
    Commodities :=
  { food := capacity + storage.food,
    ore := capacity + storage.ore,
    luxuries := capacity + storage.luxuries,
    lumber := capacity + storage.lumber,
    stone := capacity + storage.stone }

/-- Modelled from the spec: getSizeData and getLevelData live in data/kingdom,
which is absent from the sources. collectResources reads the base resource
dice through getLevelData applied to the kingdom size; the only value the spec
pins is the scenario at size small (resourceDice.now = 2, no feats, 2 dice in
total), which forces a base of 0 there, and no other size is specified. -/
structure LevelData where
  resourceDice : Int
  deriving Repr, DecidableEq

/-- Modelled from the spec: base resource dice looked up for the kingdom size;
the spec scenario fixes the value 0 at size small and pins no other size. -/
def getLevelData (_size : String) : LevelData :=
  { resourceDice := 0 }

/-- Internal hasInsiderTrading test of insiderTradingResources. -/
def hasInsiderTradingFeat (feats : List Feat) (bonusFeat : List Feat) : Bool :=
  feats.any (fun f => f.id = "Insider Trading") ||
    bonusFeat.any (fun f => f.id = "Insider Trading")

/-- insiderTradingResources from kingdom.ts. -/
def insiderTradingResources (feats : List Feat) (bonusFeat : List Feat) : Int :=
  if hasInsiderTradingFeat feats bonusFeat then 1 else 0

/-- calculateCommoditiesThisTurn from kingdom.ts: the raw per-turn work-site
yields (the source maps ore and lumber both to mines and stone to lumber
camps; the embedding preserves that mapping literally). -/
structure CommoditiesNoFood where
  ore : Int
  lumber : Int
  luxuries : Int
  stone : Int
  deriving Repr, DecidableEq

/-- calculateCommoditiesThisTurn body. -/
def calculateCommoditiesThisTurn (kingdom : Kingdom) : CommoditiesNoFood :=
  { ore := kingdom.workSites.mines.quantity + kingdom.workSites.mines.resources,
    lumber := kingdom.workSites.mines.quantity + kingdom.workSites.mines.resources,
    luxuries := kingdom.workSites.luxurySources.quantity +
      kingdom.workSites.luxurySources.resources,
    stone := kingdom.workSites.lumberCamps.quantity +
      kingdom.workSites.lumberCamps.resources }

/-- Number of resource dice assembled inside collectResources:
levelData.resourceDice + resourceDice.now + feat dice. -/
def collectResourcesDiceCount (kingdom : Kingdom) : Int :=
  (getLevelData kingdom.size).resourceDice + kingdom.resourceDice.now +
    insiderTradingResources kingdom.feats kingdom.bonusFeats

/-- collectResources from kingdom.ts. The rolled resource-point total comes
from the dice port and the storage capacity from the settlement scenes, so
both are explicit arguments; the function returns the committed kingdom. -/
def collectResources (current : Kingdom) (rolledPoints : Int)
    (capacity : Commodities) : Kingdom :=
  let commodities := calculateCommoditiesThisTurn current
  { current with
    resourcePoints :=
      { now := current.resourcePoints.now + rolledPoints,
        next := current.resourcePoints.next },
    resourceDice :=
      { now := 0, next := current.resourceDice.next },
    commodities :=
      { now :=
          { ore := min capacity.ore commodities.ore,
            lumber := min capacity.lumber commodities.lumber,
            luxuries := min capacity.luxuries commodities.luxuries,
            stone := min capacity.stone commodities.stone,
            food := current.commodities.now.food },
        next := current.commodities.next } }

/-- endTurn from kingdom.ts; the capacity is an explicit argument for the same
reason as in collectResources. The source really feeds
current.resourcePoints.next into the new resourceDice.now. -/
def endTurn (current : Kingdom) (capacity : Commodities) : Kingdom :=
  { current with
    resourceDice :=
      { now := current.resourcePoints.next, next := 0 },
    resourcePoints :=
      { now := current.resourcePoints.next, next := 0 },
    consumption :=
      { now := current.consumption.next, next := 0,
        armies := current.consumption.armies },
    commodities :=
      { now :=
          { food := min capacity.food
              (current.commodities.now.food + current.commodities.next.food),
            luxuries := min capacity.luxuries
              (current.commodities.now.luxuries + current.commodities.next.luxuries),
            stone := min capacity.stone
              (current.commodities.now.stone + current.commodities.next.stone),
            lumber := min capacity.lumber
              (current.commodities.now.lumber + current.commodities.next.lumber),
            ore := min capacity.ore
              (current.commodities.now.ore + current.commodities.next.ore) },
        next := { food := 0, luxuries := 0, stone := 0, lumber := 0, ore := 0 } } }

/-- adjustUnrest from kingdom.ts; the settlement scene list is an explicit
argument. Only the committed unrest write is state, the ruin roll, hex check
and anarchy warning are chat output. -/
def adjustUnrest (current : Kingdom) (data : List SettlementSceneData) :
    Kingdom :=
  let atWar : Int := if current.atWar then 1 else 0
  let overcrowdedSettlements : Int :=
    (data.filter (fun s => s.scenedData.overcrowded)).length
  let secondaryTerritories : Int :=
    if data.any (fun s => s.scenedData.secondaryTerritory) then 1 else 0
  let newUnrest := atWar + overcrowdedSettlements + secondaryTerritories
  let unrest := newUnrest + current.unrest
  let unrest := if current.level ≥ 20 ∧ unrest > 0 then 0 else unrest
  { current with unrest := unrest }

/-- calculateEventDC from kingdom.ts. -/
def calculateEventDC (turnsWithoutEvent : Int) : Int :=
  max 1 (16 - turnsWithoutEvent * 5)

/-- checkForEvent from kingdom.ts; the d20 total is an explicit argument and
the Bool reports whether an event occurs. -/
def checkForEvent (current : Kingdom) (rollTotal : Int) : Kingdom × Bool :=
  let dc := calculateEventDC current.turnsWithoutEvent
  if rollTotal ≥ dc then
    ({ current with turnsWithoutEvent := 0 }, true)
  else
    ({ current with turnsWithoutEvent := current.turnsWithoutEvent + 1 }, false)

/-- reduceUnrest from kingdom.ts; the d20 total is an explicit argument. -/
def reduceUnrest (current : Kingdom) (rollTotal : Int) : Kingdom :=
  if rollTotal > 10 then
    { current with unrest := max 0 (current.unrest - 1) }
  else
    current

/-- One construction skill requirement of a structure. -/
structure SkillRequirement where
  skill : String
  proficiencyRank : Option Int
  deriving Repr, DecidableEq

/-- Construction block of a structure. -/
structure Construction where
  skills : Option (List SkillRequirement)
  deriving Repr, DecidableEq

/-- Structure record as read by the structure browser. -/
structure Structure where
  construction : Option Construction
  deriving Repr, DecidableEq

/-- checkProficiency from the structure browser: the gate passes when the
skills list is absent, empty, or some requirement is met. -/
def checkProficiency (s : Structure) (kingdom : Kingdom) : Bool :=
  match s.construction with
  | none => true
  | some c =>
    match c.skills with
    | none => true
    | some skills =>
      skills.isEmpty ||
        skills.any (fun requirement =>
          kingdom.skillRanks requirement.skill ≥
            requirement.proficiencyRank.getD 0)

/-- Follows the claim C5 wording, not the source: the gate as the claim states
it, true when there are no skill requirements or when every requirement is
satisfied by the recorded proficiency rank. -/
def claimEveryProficiency (s : Structure) (kingdom : Kingdom) : Bool :=
  match s.construction with
  | none => true
  | some c =>
    match c.skills with
    | none => true
    | some skills =>
      skills.all (fun requirement =>
        kingdom.skillRanks requirement.skill ≥
          requirement.proficiencyRank.getD 0)

/-- A concrete kingdom state used to instantiate the theorems below. -/
def sampleKingdom : Kingdom :=
  { level := 5,
    size := "small",
    atWar := false,
    unrest := 3,
    commodities :=
      { now := { food := 2, luxuries := 1, stone := 1, lumber := 1, ore := 1 },
        next := { food := 0, luxuries := 0, stone := 0, lumber := 0, ore := 0 } },
    resourcePoints := { now := 4, next := 0 },
    resourceDice := { now := 2, next := 0 },
    consumption := { now := 0, next := 0, armies := 0 },
    ruin :=
      { crime := { value := 0 }, decay := { value := 0 },
        corruption := { value := 0 }, strife := { value := 0 } },
    workSites :=
      { mines := { quantity := 1, resources := 1 },
        lumberCamps := { quantity := 0, resources := 0 },
        luxurySources := { quantity := 0, resources := 0 } },
    turnsWithoutEvent := 2,
    feats := [],
    bonusFeats := [],
    skillRanks := fun _ => 0 }

/-- A concrete all-100 storage capacity used to instantiate the theorems. -/
def capacityAll100 : Commodities :=
  { food := 100, luxuries := 100, stone := 100, lumber := 100, ore := 100 }

/-- First requirement of structureC5: magic with no required rank, which an
untrained kingdom meets. -/
def skillRequirementMagic : SkillRequirement :=
  { skill := "magic", proficiencyRank := none }

/-- Second requirement of structureC5: folklore at legendary rank. -/
def skillRequirementFolklore : SkillRequirement :=
  { skill := "folklore", proficiencyRank := some 4 }

/-- The construction block of structureC5. -/
def constructionC5 : Construction :=
  { skills := some [skillRequirementMagic, skillRequirementFolklore] }

/-- The structure record of the C5 counterexample. -/
def structureC5 : Structure :=
  { construction := some constructionC5 }

/-- The kingdom of the C1 failing input: the two next columns of
resourceDice and resourcePoints hold different values, 5 and 7. -/
def kingdomC1 : Kingdom :=
  { sampleKingdom with
    resourceDice := { now := 1, next := 5 },
    resourcePoints := { now := 2, next := 7 } }

/-- The kingdom of the C2 failing input: 3 ore already stored, work sites
yielding 2 ore this turn, capacity far above both. -/
def kingdomC2 : Kingdom :=
  { sampleKingdom with
    commodities :=
      { now := { food := 2, luxuries := 0, stone := 0, lumber := 0, ore := 3 },
        next := { food := 0, luxuries := 0, stone := 0, lumber := 0, ore := 0 } },
    workSites :=
      { mines := { quantity := 1, resources := 1 },
        lumberCamps := { quantity := 0, resources := 0 },
        luxurySources := { quantity := 0, resources := 0 } } }

/-- The kingdom of the C6 failing input: level 20, pre-existing unrest 5, at
war, no settlement scenes. -/
def kingdomC6 : Kingdom :=
  { sampleKingdom with level := 20, unrest := 5, atWar := true }

/-- A concrete settlement scene used by the C9 witness. -/
def settlementSceneA : SettlementSceneData :=
  { scenedData := { overcrowded := false, secondaryTerritory := false },
    settlement :=
      { leadershipActivityBonus := true,
        consumption := 2,
        storage := { food := 1, luxuries := 0, stone := 0, lumber := 2, ore := 0 },
        unlockActivities := ["celebrate-holiday"] } }

/-- A second concrete settlement scene used by the C9 witness. -/
def settlementSceneB : SettlementSceneData :=
  { scenedData := { overcrowded := true, secondaryTerritory := false },
    settlement :=
      { leadershipActivityBonus := false,
        consumption := 1,
        storage := { food := 0, luxuries := 3, stone := 1, lumber := 0, ore := 4 },
        unlockActivities := ["evangelize-the-dead"] } }

/-- C4: for non-negative current value c and delta d the ledger returns
c + d when gaining and c - d when losing with no limit, the internal missing
amount in lose mode is max 0 (d - c), a supplied limit turns the result into
max limit (c plus or minus d), and the shortfall message is surfaced only for
the now column, never for the next column. -/
theorem c4_calculate_new_value (c d lim : Int) (ty : String)
    (turn : ResourceTurn) (_hc : 0 ≤ c) (_hd : 0 ≤ d) :
    (calculateNewValue c d ty turn ResourceMode.gain none).value = c + d ∧
    (calculateNewValue c d ty turn ResourceMode.lose none).value = c - d ∧
    calculateMissing (c - d) = max 0 (d - c) ∧
    (calculateNewValue c d ty turn ResourceMode.gain (some lim)).value =
      max lim (c + d) ∧
    (calculateNewValue c d ty turn ResourceMode.lose (some lim)).value =
      max lim (c - d) ∧
    (∀ mode limit,
      (calculateNewValue c d ty ResourceTurn.next mode limit).missingMessage = "") ∧
    (c < d →
      (calculateNewValue c d ty ResourceTurn.now ResourceMode.lose none).missingMessage =
        "Missing " ++ toString (d - c) ++ " " ++ unslugify ty) := by
  have hmiss : calculateMissing (c - d) = max 0 (d - c) := by
    simp only [calculateMissing]
    split_ifs <;> omega
  refine ⟨rfl, rfl, hmiss, rfl, rfl, ?_, ?_⟩
  · intro mode limit
    simp [calculateNewValue]
  · intro hlt
    have h1 : calculateMissing (c - d) = d - c := by
      simp only [calculateMissing]
      split_ifs <;> omega
    simp only [calculateNewValue, h1]
    rw [if_pos]
    exact ⟨by omega, trivial⟩

/-- C4 witness at c = 3, d = 5, limit = 2, tag ore, turn now. -/
theorem c4_witness :
    (calculateNewValue 3 5 "ore" ResourceTurn.now ResourceMode.gain none).value =
      3 + 5 ∧
    (calculateNewValue 3 5 "ore" ResourceTurn.next ResourceMode.lose none).missingMessage =
      "" :=
  ⟨(c4_calculate_new_value 3 5 2 "ore" ResourceTurn.now (by decide) (by decide)).1,
   (c4_calculate_new_value 3 5 2 "ore" ResourceTurn.now (by decide)
     (by decide)).2.2.2.2.2.1 ResourceMode.lose none⟩

/-- C8: the event DC is 16, 11, 6, 1 for counters 0, 1, 2, 3 and never drops
below 1; a d20 total at or above the DC resets turnsWithoutEvent to 0 and
signals an event, a lower total increments the counter by exactly 1. -/
theorem c8_check_for_event (k : Kingdom) (roll : Int)
    (_h : 0 ≤ k.turnsWithoutEvent) :
    (calculateEventDC 0 = 16 ∧ calculateEventDC 1 = 11 ∧
      calculateEventDC 2 = 6 ∧ calculateEventDC 3 = 1) ∧
    1 ≤ calculateEventDC k.turnsWithoutEvent ∧
    (roll ≥ calculateEventDC k.turnsWithoutEvent →
      checkForEvent k roll = ({ k with turnsWithoutEvent := 0 }, true)) ∧
    (roll < calculateEventDC k.turnsWithoutEvent →
      checkForEvent k roll =
        ({ k with turnsWithoutEvent := k.turnsWithoutEvent + 1 }, false)) := by
  refine ⟨by decide, ?_, ?_, ?_⟩
  · simp only [calculateEventDC]
    omega
  · intro hge
    simp only [checkForEvent, if_pos hge]
  · intro hlt
    have : ¬ roll ≥ calculateEventDC k.turnsWithoutEvent := by omega
    simp only [checkForEvent, if_neg this]

/-- C8 witness: counter 2 gives DC 6, a roll of 7 resets the counter and
signals the event. -/
theorem c8_witness :
    checkForEvent sampleKingdom 7 =
      ({ sampleKingdom with turnsWithoutEvent := 0 }, true) :=
  (c8_check_for_event sampleKingdom 7 (by decide)).2.2.1 (by decide)

/-- C10: reduceUnrest commits a change only on a d20 total strictly above 10,
in which case unrest becomes max 0 (unrest - 1); on 10 or less the kingdom is
returned untouched, and a non-negative unrest stays non-negative. -/
theorem c10_reduce_unrest (k : Kingdom) (roll : Int) :
    (roll > 10 →
      reduceUnrest k roll = { k with unrest := max 0 (k.unrest - 1) }) ∧
    (roll ≤ 10 → reduceUnrest k roll = k) ∧
    (0 ≤ k.unrest → 0 ≤ (reduceUnrest k roll).unrest) := by
  refine ⟨?_, ?_, ?_⟩
  · intro hgt
    simp only [reduceUnrest, if_pos hgt]
  · intro hle
    have : ¬ roll > 10 := by omega
    simp only [reduceUnrest, if_neg this]
  · intro hnn
    by_cases hgt : roll > 10
    · simp only [reduceUnrest, if_pos hgt]
      exact le_max_left 0 _
    · simp only [reduceUnrest, if_neg hgt]
      exact hnn

/-- C10 witness: a roll of 4 leaves the sample kingdom untouched and a roll
of 15 lowers its unrest from 3 to max 0 2. -/
theorem c10_witness :
    reduceUnrest sampleKingdom 4 = sampleKingdom ∧
    reduceUnrest sampleKingdom 15 =
      { sampleKingdom with unrest := max 0 (sampleKingdom.unrest - 1) } :=
  ⟨(c10_reduce_unrest sampleKingdom 4).2.1 (by decide),
   (c10_reduce_unrest sampleKingdom 15).1 (by decide)⟩

/-- C5 counterexample: checkProficiency passes structureC5 against the sample
kingdom although one of its skill requirements is not met, so the gate does
not demand that every requirement is satisfied. -/
theorem c5_counterexample :
    checkProficiency structureC5 sampleKingdom = true ∧
    claimEveryProficiency structureC5 sampleKingdom = false := by
  decide

/-- C5 (amended): checkProficiency returns true if and only if the structure
has no construction skill requirement list, the list is empty, or at least
one requirement in it is satisfied by the recorded proficiency rank for the
skill, a missing required rank counting as 0. -/
theorem c5_proficiency_gate (s : Structure) (k : Kingdom) :
    checkProficiency s k = true ↔
      ∀ c, s.construction = some c → ∀ skills, c.skills = some skills →
        skills = [] ∨ ∃ requirement ∈ skills,
          k.skillRanks requirement.skill ≥ requirement.proficiencyRank.getD 0 := by
  cases hcon : s.construction with
  | none => simp [checkProficiency, hcon]
  | some c =>
    cases hsk : c.skills with
    | none => simp [checkProficiency, hcon, hsk]
    | some skills =>
      simp [checkProficiency, hcon, hsk, List.isEmpty_iff, List.any_eq_true]

/-- C5 witness: the amended characterization instantiated at the concrete
counterexample structure and the sample kingdom. -/
theorem c5_witness :
    checkProficiency structureC5 sampleKingdom = true ↔
      ∀ c, structureC5.construction = some c →
        ∀ skills, c.skills = some skills →
          skills = [] ∨ ∃ requirement ∈ skills,
            sampleKingdom.skillRanks requirement.skill ≥
              requirement.proficiencyRank.getD 0 :=
  c5_proficiency_gate structureC5 sampleKingdom

/-- C1: at the failing input, endTurn writes resourcePoints.next (7) into the
new resourceDice.now instead of the old resourceDice.next (5), while the
resourcePoints and consumption rows and the commodity clamp behave as the
claim states. -/
theorem c1_end_turn_resource_dice_bug :
    kingdomC1.resourceDice.next = 5 ∧
    kingdomC1.resourcePoints.next = 7 ∧
    (endTurn kingdomC1 capacityAll100).resourceDice.now = 7 ∧
    (endTurn kingdomC1 capacityAll100).resourceDice.now ≠
      kingdomC1.resourceDice.next ∧
    (endTurn kingdomC1 capacityAll100).resourcePoints = { now := 7, next := 0 } ∧
    (endTurn kingdomC1 capacityAll100).consumption =
      { now := 0, next := 0, armies := 0 } ∧
    (endTurn kingdomC1 capacityAll100).commodities.now.food =
      min capacityAll100.food
        (kingdomC1.commodities.now.food + kingdomC1.commodities.next.food) := by
  decide

/-- C2: at the failing input, collectResources overwrites the stored 3 ore
with the clamped yield 2 instead of the clamped sum 5; food.now and the next
columns are indeed untouched. -/
theorem c2_collect_resources_overwrite_bug :
    (calculateCommoditiesThisTurn kingdomC2).ore = 2 ∧
    kingdomC2.commodities.now.ore = 3 ∧
    (collectResources kingdomC2 4 capacityAll100).commodities.now.ore = 2 ∧
    (collectResources kingdomC2 4 capacityAll100).commodities.now.ore ≠
      min capacityAll100.ore
        (kingdomC2.commodities.now.ore + (calculateCommoditiesThisTurn kingdomC2).ore) ∧
    (collectResources kingdomC2 4 capacityAll100).commodities.now.food =
      kingdomC2.commodities.now.food ∧
    (collectResources kingdomC2 4 capacityAll100).commodities.next =
      kingdomC2.commodities.next := by
  decide

/-- C6: at the failing input the level 20 suppression wipes the whole unrest
total to 0, so the committed unrest is 0 and not the pre-existing 5 the claim
requires. -/
theorem c6_adjust_unrest_wipe_bug :
    kingdomC6.unrest = 5 ∧
    (adjustUnrest kingdomC6 []).unrest = 0 ∧
    (adjustUnrest kingdomC6 []).unrest ≠ kingdomC6.unrest := by
  decide

/-- C3: for a size small kingdom with resourceDice.now = 2 the assembled die
count is 2 without an Insider Trading feat and 3 with one, the rolled total
is added onto resourcePoints.now, and resourceDice.now is reset to 0. -/
theorem c3_collect_resources_dice (k : Kingdom) (r : Int)
    (capacity : Commodities) (hsize : k.size = "small")
    (hdice : k.resourceDice.now = 2) :
    (hasInsiderTradingFeat k.feats k.bonusFeats = false →
      collectResourcesDiceCount k = 2) ∧
    (hasInsiderTradingFeat k.feats k.bonusFeats = true →
      collectResourcesDiceCount k = 3) ∧
    (collectResources k r capacity).resourcePoints.now =
      k.resourcePoints.now + r ∧
    (collectResources k r capacity).resourceDice.now = 0 := by
  refine ⟨?_, ?_, rfl, rfl⟩
  · intro hins
    rw [collectResourcesDiceCount, hsize, hdice, insiderTradingResources, hins]
    decide
  · intro hins
    rw [collectResourcesDiceCount, hsize, hdice, insiderTradingResources, hins]
    decide

/-- C3 witness: the sample kingdom has size small, two stored resource dice
and no feats, so it rolls 2 dice and commits the stated updates. -/
theorem c3_witness :
    collectResourcesDiceCount sampleKingdom = 2 ∧
    (collectResources sampleKingdom 9 capacityAll100).resourcePoints.now =
      sampleKingdom.resourcePoints.now + 9 ∧
    (collectResources sampleKingdom 9 capacityAll100).resourceDice.now = 0 :=
  ⟨(c3_collect_resources_dice sampleKingdom 9 capacityAll100 (by decide)
      (by decide)).1 (by decide),
   (c3_collect_resources_dice sampleKingdom 9 capacityAll100 (by decide)
      (by decide)).2.2.1,
   (c3_collect_resources_dice sampleKingdom 9 capacityAll100 (by decide)
      (by decide)).2.2.2⟩

/-- C7: read and write of the resolver succeed exactly on the same closed set
of thirteen tags and error outside it; unrest and the four ruin tags ignore
the turn argument in both directions; and roll-resource-dice reads and writes
the resourcePoints field exactly as resource-points does. -/
theorem c7_resolver_lockstep (k : Kingdom) (tag : String) (turn : ResourceTurn)
    (v : Int) :
    (exceptOk (getCurrentValue k tag turn) = true ↔ tag ∈ handledResourceTags) ∧
    (exceptOk (createUpdate k tag turn v) = true ↔ tag ∈ handledResourceTags) ∧
    getCurrentValue k "unrest" ResourceTurn.now =
      getCurrentValue k "unrest" ResourceTurn.next ∧
    getCurrentValue k "crime" ResourceTurn.now =
      getCurrentValue k "crime" ResourceTurn.next ∧
    getCurrentValue k "decay" ResourceTurn.now =
      getCurrentValue k "decay" ResourceTurn.next ∧
    getCurrentValue k "strife" ResourceTurn.now =
      getCurrentValue k "strife" ResourceTurn.next ∧
    getCurrentValue k "corruption" ResourceTurn.now =
      getCurrentValue k "corruption" ResourceTurn.next ∧
    createUpdate k "unrest" ResourceTurn.now v =
      createUpdate k "unrest" ResourceTurn.next v ∧
    createUpdate k "crime" ResourceTurn.now v =
      createUpdate k "crime" ResourceTurn.next v ∧
    createUpdate k "decay" ResourceTurn.now v =
      createUpdate k "decay" ResourceTurn.next v ∧
    createUpdate k "strife" ResourceTurn.now v =
      createUpdate k "strife" ResourceTurn.next v ∧
    createUpdate k "corruption" ResourceTurn.now v =
      createUpdate k "corruption" ResourceTurn.next v ∧
    getCurrentValue k "roll-resource-dice" turn =
      getCurrentValue k "resource-points" turn ∧
    createUpdate k "roll-resource-dice" turn v =
      createUpdate k "resource-points" turn v := by
  refine ⟨?_, ?_, rfl, rfl, rfl, rfl, rfl, rfl, rfl, rfl, rfl, rfl, rfl, rfl⟩
  · simp only [getCurrentValue]
    split_ifs with h1 h2 h3 h4 h5 <;>
      simp_all [handledResourceTags, exceptOk] <;> tauto
  · simp only [createUpdate]
    split_ifs with h1 h2 h3 h4 h5 <;>
      simp_all [handledResourceTags, exceptOk] <;> tauto

/-- C7 witness: the resolver lock-step property instantiated at the sample
kingdom with an unhandled tag, extracting that read of the tag fails. -/
theorem c7_witness :
    exceptOk (getCurrentValue sampleKingdom "gold" ResourceTurn.now) = true ↔
      "gold" ∈ handledResourceTags :=
  (c7_resolver_lockstep sampleKingdom "gold" ResourceTurn.now 1).1

/-- C9: the cross-location merge starts from the fixed accumulator, its merge
step is commutative and associative in every field, and the fold is invariant
under permutation of the settlement list; the empty list yields the
accumulator itself. -/
theorem c9_settlement_merge :
    getSettlementData [] = settlementDataInit ∧
    (∀ a b, settlementCombine a b = settlementCombine b a) ∧
    (∀ a b c, settlementCombine (settlementCombine a b) c =
      settlementCombine a (settlementCombine b c)) ∧
    (∀ l1 l2 : List SettlementSceneData, l1.Perm l2 →
      getSettlementData l1 = getSettlementData l2) := by
  have comm : ∀ a b, settlementCombine a b = settlementCombine b a := by
    intro a b
    simp only [settlementCombine, SettlementData.mk.injEq,
      CommodityStorage.mk.injEq]
    refine ⟨max_comm _ _, add_comm _ _,
      ⟨add_comm _ _, add_comm _ _, add_comm _ _, add_comm _ _, add_comm _ _⟩,
      Finset.union_comm _ _⟩
  have assoc : ∀ a b c, settlementCombine (settlementCombine a b) c =
      settlementCombine a (settlementCombine b c) := by
    intro a b c
    simp only [settlementCombine, SettlementData.mk.injEq,
      CommodityStorage.mk.injEq]
    refine ⟨max_assoc _ _ _, add_assoc _ _ _,
      ⟨add_assoc _ _ _, add_assoc _ _ _, add_assoc _ _ _, add_assoc _ _ _,
        add_assoc _ _ _⟩,
      Finset.union_assoc _ _ _⟩
  refine ⟨rfl, comm, assoc, ?_⟩
  intro l1 l2 p
  unfold getSettlementData
  exact (p.map settlementProject).foldl_eq'
    (fun x _ y _ z => by rw [assoc, comm x y, ← assoc]) settlementDataInit

/-- C9 witness: two concrete settlement scenes merged in either order give
the same aggregate. -/
theorem c9_witness :
    getSettlementData [settlementSceneA, settlementSceneB] =
      getSettlementData [settlementSceneB, settlementSceneA] :=
  c9_settlement_merge.2.2.2 [settlementSceneA, settlementSceneB]
    [settlementSceneB, settlementSceneA] (List.Perm.swap _ _ _)

end Kingmaker
